import Mathlib

/-!
Shallow embedding of the googlesheets-as-DB backend (FastAPI + Google
Sheets row store) for checking its natural-language specification.

Sources embedded:
- `src/security.py`  : JWT session token issuance (`create_access_token`);
- `src/main.py`      : the login callback (`auth_callback`), the record
  mapper (`map_row_to_model`, `map_model_to_row`), the spreadsheet-id
  guard (`get_spreadsheet_id`), the generic CRUD endpoints
  (`add_record`, `get_records`, `update_record`, `delete_record`) and
  the provisioning endpoint (`setup_sheet`);
- `src/sheets_api.py`: `SHEET_STRUCTURE`, `get_all_rows`,
  `find_row_index`, `delete_row`;
- `src/database.py`  : `save_or_update_user`, `update_spreadsheet_id`;
- `src/models.py`    : the `Admission` record kind and its
  create/update shapes, and the id-generation default factories.

Modelling conventions: time is in minutes as `Nat`; Python `str` values
are `String`; a Python value that may be `None` is an `Option`;
`pydantic` date fields are carried as their ISO-8601 string form (which
is exactly what `model_dump(mode='json')` produces and what pydantic
parses back); remote-API calls are recorded in an explicit trace so
that "no store call happens" is a statement about the trace.
-/

namespace GSheetsDB

/-! ### Session issuer (src/security.py) -/

/-- A decoded JWT payload: the claims written by `create_access_token`.
`sub` is the user's email, `exp` the absolute expiry in minutes. -/
structure Token where
  sub : String
  exp : Nat
deriving Repr, DecidableEq

/-- `ACCESS_TOKEN_EXPIRE_MINUTES = 60 * 24` (src/security.py line 17,
commented "Token valid for 1 day"). It is defined but never passed to
`create_access_token` anywhere in the repository. -/
def ACCESS_TOKEN_EXPIRE_MINUTES : Nat := 60 * 24

/-- `create_access_token(data, expires_delta=None)` (src/security.py
lines 34-43): if `expires_delta` is truthy the expiry is
`now + expires_delta`, otherwise `now + timedelta(minutes=15)`.
A zero `timedelta` is falsy in Python, hence the inner `if`. -/
def create_access_token (now : Nat) (sub : String) (expires_delta : Option Nat) : Token :=
  match expires_delta with
  | some d => if d ≠ 0 then { sub := sub, exp := now + d } else { sub := sub, exp := now + 15 }
  | none => { sub := sub, exp := now + 15 }

/-- The token issued by the login flow: `auth_callback` (src/main.py
line 128) calls `create_access_token(data={"sub": user_email})` with no
`expires_delta` argument. -/
def auth_callback_token (now : Nat) (user_email : String) : Token :=
  create_access_token now user_email none

/-! ### Record mapper (src/main.py lines 73-84) and sheet structure -/

/-- Header normalization used by both mapper directions:
`key.lower().replace(' ', '_').replace('/', '_')`. -/
def normalize_key (s : String) : String :=
  String.mk (s.data.map (fun c => if c = ' ' ∨ c = '/' then '_' else c.toLower))

/-- `SHEET_STRUCTURE` (src/sheets_api.py lines 11-36). -/
def SHEET_STRUCTURE : List (String × List String) :=
  [ ("Admissions",
     [ "Admission ID", "Student Name", "Date of Birth", "Gender", "Contact Number",
       "Email", "Address", "Course Applied", "Department", "Admission Date",
       "Admission Status", "Parent/Guardian Name", "Parent/Guardian Contact",
       "Nationality", "Category", "Remarks" ]),
    ("Library",
     [ "Book ID", "Title", "Author", "Genre", "Publisher", "Edition/Year", "ISBN",
       "Shelf Location", "Availability Status", "Issued To", "Issue Date",
       "Return Date", "Fine Rate", "Fine Accrued" ]),
    ("Hostel",
     [ "Occupancy ID", "Hostel ID", "Room Type", "Fee Status", "Room Number",
       "Occupied Beds", "Vacant Beds", "Student ID", "Student Name",
       "Check IN Date", "Check Out Date", "Status" ]),
    ("Fees",
     [ "Receipt ID", "Student ID", "Student Name", "Course", "Semester/Year",
       "Fee Type", "Amount", "Payment Mode", "Transaction ID", "Payment Date",
       "Status", "Remarks" ]),
    ("Users",
     [ "User ID", "Username", "Password", "Role" ]) ]

/-- The header row of the `Admissions` sub-table. -/
def admissions_headers : List String :=
  [ "Admission ID", "Student Name", "Date of Birth", "Gender", "Contact Number",
    "Email", "Address", "Course Applied", "Department", "Admission Date",
    "Admission Status", "Parent/Guardian Name", "Parent/Guardian Contact",
    "Nationality", "Category", "Remarks" ]

/-- The `Admission` record kind (src/models.py lines 8-30); the same
field set serves `AdmissionCreate` and the `Admission` response model.
Date fields are carried as their ISO-8601 string form. `remarks` is
`Optional[str] = None`. -/
structure Admission where
  student_name : String
  date_of_birth : String
  gender : String
  contact_number : String
  email : String
  address : String
  course_applied : String
  department : String
  admission_status : String
  parent_guardian_name : String
  parent_guardian_contact : String
  nationality : String
  category : String
  remarks : Option String
  admission_id : String
  admission_date : String
deriving Repr, DecidableEq

/-- `model_dump(mode='json')` of an `Admission`: a dict whose keys are
field names and whose values are JSON strings, or `null` (here `none`)
for an unset optional field. -/
def admission_dump (a : Admission) : List (String × Option String) :=
  [ ("student_name", some a.student_name),
    ("date_of_birth", some a.date_of_birth),
    ("gender", some a.gender),
    ("contact_number", some a.contact_number),
    ("email", some a.email),
    ("address", some a.address),
    ("course_applied", some a.course_applied),
    ("department", some a.department),
    ("admission_status", some a.admission_status),
    ("parent_guardian_name", some a.parent_guardian_name),
    ("parent_guardian_contact", some a.parent_guardian_contact),
    ("nationality", some a.nationality),
    ("category", some a.category),
    ("remarks", a.remarks),
    ("admission_id", some a.admission_id),
    ("admission_date", some a.admission_date) ]

/-- `str(data_dict.get(key, ''))` (src/main.py line 84): a missing key
yields `''`; a key whose dict value is `None` yields the Python string
`str(None) = "None"`. -/
def py_str_of_entry (d : List (String × Option String)) (key : String) : String :=
  match d.lookup key with
  | none => ""
  | some none => "None"
  | some (some s) => s

/-- `map_model_to_row` (src/main.py lines 79-84) specialized to the
`Admissions` sheet: for each header, normalize it and fetch the string
form of that field from the model dump. -/
def map_model_to_row (a : Admission) : List String :=
  admissions_headers.map (fun h => py_str_of_entry (admission_dump a) (normalize_key h))

/-- `map_row_to_model` (src/main.py lines 73-77) specialized to
`Admission`: normalize each observed header and construct the model;
pydantic validation fails (`none`) when a required field is absent.
A present `remarks` value validates as that string (`Optional[str]`
accepts any string, including `"None"`). -/
def map_row_to_model (row : List (String × String)) : Option Admission :=
  let m := row.map (fun kv => (normalize_key kv.1, kv.2))
  match m.lookup "student_name", m.lookup "date_of_birth", m.lookup "gender",
        m.lookup "contact_number", m.lookup "email", m.lookup "address",
        m.lookup "course_applied", m.lookup "department", m.lookup "admission_status",
        m.lookup "parent_guardian_name", m.lookup "parent_guardian_contact",
        m.lookup "nationality", m.lookup "category",
        m.lookup "admission_id", m.lookup "admission_date" with
  | some sn, some dob, some g, some cn, some em, some ad, some ca, some dep,
    some st, some pgn, some pgc, some nat, some cat, some aid, some adt =>
      some { student_name := sn, date_of_birth := dob, gender := g,
             contact_number := cn, email := em, address := ad,
             course_applied := ca, department := dep, admission_status := st,
             parent_guardian_name := pgn, parent_guardian_contact := pgc,
             nationality := nat, category := cat,
             remarks := m.lookup "remarks",
             admission_id := aid, admission_date := adt }
  | _, _, _, _, _, _, _, _, _, _, _, _, _, _, _ => none

/-- `dict(zip(headers, padded_row))` as produced by `get_all_rows`
(src/sheets_api.py lines 163-165). -/
def row_to_dict (headers : List String) (cells : List String) : List (String × String) :=
  headers.zip (cells ++ List.replicate (headers.length - cells.length) "")

/-! ### User directory (src/database.py) -/

/-- One row of the local `users` table (src/database.py lines 29-36):
email is the primary key; `spreadsheet_id` is nullable. -/
structure UserRec where
  email : String
  name : String
  encrypted_refresh_token : String
  spreadsheet_id : Option String
deriving Repr, DecidableEq

/-- `save_or_update_user` (src/database.py lines 40-66): if a row with
this email exists, `UPDATE users SET name = ?, encrypted_refresh_token
= ? WHERE email = ?`; otherwise `INSERT` a fresh row whose
`spreadsheet_id` is NULL. -/
def save_or_update_user (db : List UserRec) (email name tok : String) : List UserRec :=
  if db.any (fun u => u.email == email) then
    db.map (fun u =>
      if u.email == email then { u with name := name, encrypted_refresh_token := tok } else u)
  else
    db ++ [{ email := email, name := name, encrypted_refresh_token := tok,
             spreadsheet_id := none }]

/-- `update_spreadsheet_id` (src/database.py lines 68-78):
`UPDATE users SET spreadsheet_id = ? WHERE email = ?`. -/
def update_spreadsheet_id (db : List UserRec) (email sid : String) : List UserRec :=
  db.map (fun u => if u.email == email then { u with spreadsheet_id := some sid } else u)

/-! ### Row store adapter (src/sheets_api.py) -/

/-- A remote Sheets API call issued by the adapter. `getMetadata` and
`fetchAll` are reads; `append`, `updateRange` and `deleteDim` mutate
the store. -/
inductive StoreCall
  | getMetadata
  | fetchAll (sheet : String)
  | append (sheet : String) (row : List String)
  | updateRange (sheet : String) (rowIndex : Nat) (values : List String)
  | deleteDim (sheetId startIndex endIndex : Nat)
deriving Repr, DecidableEq

/-- Whether a store call writes to the remote spreadsheet. -/
def StoreCall.isMutation : StoreCall → Bool
  | .append _ _ => true
  | .updateRange _ _ _ => true
  | .deleteDim _ _ _ => true
  | _ => false

/-- `get_all_rows` (src/sheets_api.py lines 139-168) on the raw cell
grid `values`: fewer than two rows yields `[]`; otherwise each data row
is padded to the header length and zipped with the headers. -/
def get_all_rows (values : List (List String)) : List (List (String × String)) :=
  match values with
  | [] => []
  | [_] => []
  | headers :: rest => rest.map (fun row => row_to_dict headers row)

/-- The per-row match used by `find_row_index` (src/sheets_api.py line
203): `len(row) > col_index and row[col_index] == search_value`. -/
def row_matches (col_index : Nat) (search_value : String) (row : List String) : Bool :=
  decide (col_index < row.length) && (row.getD col_index "" == search_value)

/-- `find_row_index` (src/sheets_api.py lines 170-208): error when the
grid is empty or the column header is absent; otherwise scan `values`
from index 0 — the header row itself — and return the 1-based index of
the first matching row; error when no row matches. -/
def find_row_index (values : List (List String)) (search_value search_column_name : String) :
    Except String Nat :=
  match values with
  | [] => .error "Sheet is empty or not found."
  | headers :: _ =>
    match headers.findIdx? (· == search_column_name) with
    | none => .error "Column not found."
    | some col_index =>
      match values.findIdx? (row_matches col_index search_value) with
      | some i => .ok (i + 1)
      | none => .error "Record not found."

/-- `delete_row` (src/sheets_api.py lines 236-268): fetch the container
metadata, resolve the sheet's numeric id by title (error when absent),
locate the row (the locate step performs the grid read), then issue one
`deleteDimension` batch update for `[row_index-1, row_index)`. Returns
the outcome together with the trace of remote calls actually issued. -/
def delete_row (meta : List (String × Nat)) (values : List (List String))
    (sheet_name search_value search_column_name : String) :
    Except String Unit × List StoreCall :=
  match meta.lookup sheet_name with
  | none => (.error "Sheet not found.", [.getMetadata])
  | some sheet_id =>
    match find_row_index values search_value search_column_name with
    | .error e => (.error e, [.getMetadata, .fetchAll sheet_name])
    | .ok row_index =>
        (.ok (), [.getMetadata, .fetchAll sheet_name,
                  .deleteDim sheet_id (row_index - 1) row_index])

/-! ### Generic CRUD engine (src/main.py), instantiated at the
`Admissions` router: sheet name "Admissions", id field "Admission ID". -/

/-- `get_spreadsheet_id` (src/main.py lines 59-70): HTTP 400 when the
stored value is falsy (`NULL` or `''`) or shorter than 30 characters;
otherwise the identifier. (The `isinstance` check cannot fail in a
typed model.) -/
def get_spreadsheet_id (u : UserRec) : Except Nat String :=
  match u.spreadsheet_id with
  | none => .error 400
  | some s => if s.length < 30 then .error 400 else .ok s

/-- `add_record` (src/main.py lines 169-175): resolve the spreadsheet
id, map the payload to a row, append it, return the payload. -/
def add_record (u : UserRec) (data : Admission) :
    Except Nat Admission × List StoreCall :=
  match get_spreadsheet_id u with
  | .error c => (.error c, [])
  | .ok _ => (.ok data, [.append "Admissions" (map_model_to_row data)])

/-- `get_records` (src/main.py lines 177-182): resolve the spreadsheet
id, fetch all rows, map each to the model; a row failing validation
raises, surfacing as HTTP 500. -/
def get_records (u : UserRec) (values : List (List String)) :
    Except Nat (List Admission) × List StoreCall :=
  match get_spreadsheet_id u with
  | .error c => (.error c, [])
  | .ok _ =>
    match (get_all_rows values).mapM map_row_to_model with
    | none => (.error 500, [.fetchAll "Admissions"])
    | some records => (.ok records, [.fetchAll "Admissions"])

/-- The `AdmissionUpdate` shape (src/models.py lines 32-46): every
field optional; the outer `Option` is "present in the payload"
(pydantic's `exclude_unset`), so `remarks` is doubly optional. There
is no `admission_id` or `admission_date` field. -/
structure AdmissionUpdate where
  student_name : Option String := none
  date_of_birth : Option String := none
  gender : Option String := none
  contact_number : Option String := none
  email : Option String := none
  address : Option String := none
  course_applied : Option String := none
  department : Option String := none
  admission_status : Option String := none
  parent_guardian_name : Option String := none
  parent_guardian_contact : Option String := none
  nationality : Option String := none
  category : Option String := none
  remarks : Option (Option String) := none
deriving Repr, DecidableEq

/-- The patch with no field set: `exclude_unset` dumps it to `{}`. -/
def emptyAdmissionUpdate : AdmissionUpdate := {}

/-- `existing_item.model_copy(update=data.model_dump(exclude_unset=True))`
(src/main.py lines 193-194): each field present in the payload replaces
the existing value; absent fields are kept. -/
def model_copy (a : Admission) (u : AdmissionUpdate) : Admission :=
  { student_name := u.student_name.getD a.student_name,
    date_of_birth := u.date_of_birth.getD a.date_of_birth,
    gender := u.gender.getD a.gender,
    contact_number := u.contact_number.getD a.contact_number,
    email := u.email.getD a.email,
    address := u.address.getD a.address,
    course_applied := u.course_applied.getD a.course_applied,
    department := u.department.getD a.department,
    admission_status := u.admission_status.getD a.admission_status,
    parent_guardian_name := u.parent_guardian_name.getD a.parent_guardian_name,
    parent_guardian_contact := u.parent_guardian_contact.getD a.parent_guardian_contact,
    nationality := u.nationality.getD a.nationality,
    category := u.category.getD a.category,
    remarks := u.remarks.getD a.remarks,
    admission_id := a.admission_id,
    admission_date := a.admission_date }

/-- `update_record` (src/main.py lines 184-197): resolve the
spreadsheet id; fetch all rows; take the first row whose `Admission ID`
cell equals `item_id` (404 when none); map it to a model (a validation
failure raises, HTTP 500); merge the patch with `model_copy`; map the
merged record back to a row and overwrite the located row (`update_row`
re-reads the grid via `find_row_index`; a locate failure there raises,
HTTP 500); return the merged record. -/
def update_record (u : UserRec) (values : List (List String))
    (item_id : String) (data : AdmissionUpdate) :
    Except Nat Admission × List StoreCall :=
  match get_spreadsheet_id u with
  | .error c => (.error c, [])
  | .ok _ =>
    match (get_all_rows values).find? (fun r => r.lookup "Admission ID" == some item_id) with
    | none => (.error 404, [.fetchAll "Admissions"])
    | some r =>
      match map_row_to_model r with
      | none => (.error 500, [.fetchAll "Admissions"])
      | some existing_item =>
        let updated_item := model_copy existing_item data
        let new_row_values := map_model_to_row updated_item
        match find_row_index values item_id "Admission ID" with
        | .error _ => (.error 500, [.fetchAll "Admissions", .fetchAll "Admissions"])
        | .ok row_index =>
            (.ok updated_item,
             [.fetchAll "Admissions", .fetchAll "Admissions",
              .updateRange "Admissions" row_index new_row_values])

/-- `delete_record` (src/main.py lines 199-207): resolve the
spreadsheet id, call `delete_row`, mapping its `ValueError` to HTTP
404; HTTP 204 (here `.ok ()`) on success. -/
def delete_record (u : UserRec) (meta : List (String × Nat))
    (values : List (List String)) (item_id : String) :
    Except Nat Unit × List StoreCall :=
  match get_spreadsheet_id u with
  | .error c => (.error c, [])
  | .ok _ =>
    match delete_row meta values "Admissions" item_id "Admission ID" with
    | (.error _, tr) => (.error 404, tr)
    | (.ok (), tr) => (.ok (), tr)

/-! ### Provisioning (src/main.py lines 150-163, `setup_sheet`) -/

/-- One externally visible step of `setup_sheet`'s provisioning path:
creating the remote spreadsheet (`create_spreadsheet`), recording its
id in the local user row (`update_spreadsheet_id`), and writing every
sub-table's header batch plus the default-sheet removal
(`setup_erp_sheets`). -/
inductive SetupCall
  | createSpreadsheet (title : String)
  | recordSpreadsheetId (email sid : String)
  | setupHeaders (sid : String)
deriving Repr, DecidableEq

/-- Python truthiness of the stored `spreadsheet_id`:
`if user_data.get('spreadsheet_id'):` — `NULL` and `''` are falsy. -/
def truthy : Option String → Bool
  | none => false
  | some s => !s.isEmpty

/-- `setup_sheet` (src/main.py lines 150-163): when the user already
has a truthy `spreadsheet_id`, return it and do nothing; otherwise
create the spreadsheet titled `"ERP Data - " + email` (the fresh remote
id is the parameter `fresh`), record the id against the user, then set
up the headers. Returns the updated user row, the returned identifier,
and the trace of provisioning steps in execution order. -/
def setup_sheet (u : UserRec) (fresh : String) : UserRec × String × List SetupCall :=
  if truthy u.spreadsheet_id then
    (u, u.spreadsheet_id.getD "", [])
  else
    ({ u with spreadsheet_id := some fresh }, fresh,
     [ .createSpreadsheet ("ERP Data - " ++ u.email),
       .recordSpreadsheetId u.email fresh,
       .setupHeaders fresh ])

/-- Effect of one provisioning step on the local user row: only
`recordSpreadsheetId` touches it. -/
def apply_setup_call (u : UserRec) : SetupCall → UserRec
  | .recordSpreadsheetId _ sid => { u with spreadsheet_id := some sid }
  | _ => u

/-- State of the local user row after the first `k` provisioning steps
— the row a crash after step `k` would leave behind. -/
def run_setup_upto (u : UserRec) (calls : List SetupCall) (k : Nat) : UserRec :=
  (calls.take k).foldl apply_setup_call u

/-- Recognizers for the three provisioning steps. -/
def SetupCall.isCreate : SetupCall → Bool
  | .createSpreadsheet _ => true
  | _ => false

def SetupCall.isRecordId : SetupCall → Bool
  | .recordSpreadsheetId _ _ => true
  | _ => false

def SetupCall.isSetupHeaders : SetupCall → Bool
  | .setupHeaders _ => true
  | _ => false

/-! ### Identifier generation (src/models.py default factories) -/

/-- Python's `str.upper()` on one ASCII character. -/
def py_upper (c : Char) : Char :=
  if 'a' ≤ c ∧ c ≤ 'z' then Char.ofNat (c.toNat - 32) else c

/-- The default factory pattern
`f"<PREFIX>-{uuid.uuid4().hex[:n].upper()}"`: `uuidHex` stands for the
32 lowercase hex characters of `uuid.uuid4().hex`; the slice takes its
first `n` characters and upper-cases them. -/
def gen_id (pre : String) (n : Nat) (uuidHex : String) : String :=
  pre ++ "-" ++ String.mk ((uuidHex.data.take n).map py_upper)

/-- `AdmissionCreate.admission_id` default: `ADM-` + 6 hex. -/
def admission_id_default (uuidHex : String) : String := gen_id "ADM" 6 uuidHex

/-- `BookCreate.book_id` default: `BK-` + 8 hex. -/
def book_id_default (uuidHex : String) : String := gen_id "BK" 8 uuidHex

/-- `HostelOccupancyCreate.occupancy_id` default: `HOC-` + 6 hex. -/
def occupancy_id_default (uuidHex : String) : String := gen_id "HOC" 6 uuidHex

/-- `FeeReceiptCreate.receipt_id` default: `RCPT-` + 8 hex. -/
def receipt_id_default (uuidHex : String) : String := gen_id "RCPT" 8 uuidHex

/-- `AppUserCreate.user_id` default: `USR-` + 6 hex. -/
def user_id_default (uuidHex : String) : String := gen_id "USR" 6 uuidHex

/-- A lowercase hexadecimal digit, as produced by `uuid4().hex`. -/
def isLowerHex (c : Char) : Bool :=
  (decide ('0' ≤ c) && decide (c ≤ '9')) || (decide ('a' ≤ c) && decide (c ≤ 'f'))

/-- An uppercase hexadecimal digit: the character class `[0-9A-F]`. -/
def isUpperHex (c : Char) : Bool :=
  (decide ('0' ≤ c) && decide (c ≤ '9')) || (decide ('A' ≤ c) && decide (c ≤ 'F'))

/-- `s` matches the identifier format `<pre>-[0-9A-F]{k}` (stated over
the character list of `s`). -/
def matches_id_format (pre : String) (k : Nat) (s : String) : Bool :=
  (s.data.take (pre.length + 1) == pre.data ++ ['-']) &&
  ((s.data.drop (pre.length + 1)).length == k) &&
  (s.data.drop (pre.length + 1)).all isUpperHex

/-- The sixteen digits `uuid4().hex` draws from, lowercase. -/
def hex_char (d : Fin 16) : Char := "0123456789abcdef".data.getD d.val '0'

/-- The corresponding uppercase hex digits. -/
def upper_hex_char (d : Fin 16) : Char := "0123456789ABCDEF".data.getD d.val '0'

/-! ### Concrete sample data used by witnesses and counterexamples -/

/-- A concrete create payload whose optional `remarks` field is unset —
`AdmissionCreate` defaults it to `None` when the caller omits it. -/
def sample_admission_no_remarks : Admission :=
  { student_name := "Asha Rao", date_of_birth := "2004-06-01", gender := "F",
    contact_number := "9999999999", email := "asha@example.com",
    address := "12 Main St", course_applied := "BSc", department := "Physics",
    admission_status := "Pending", parent_guardian_name := "R Rao",
    parent_guardian_contact := "8888888888", nationality := "Indian",
    category := "General", remarks := none,
    admission_id := "ADM-0F3A2B", admission_date := "2025-11-01" }

/-- A user row whose spreadsheet id has never been provisioned. -/
def sample_user_unprovisioned : UserRec :=
  { email := "asha@example.com", name := "Asha Rao",
    encrypted_refresh_token := "gAAAAABcipher", spreadsheet_id := none }

/-- A user row holding a well-formed (44-character) spreadsheet id. -/
def sample_user_provisioned : UserRec :=
  { email := "asha@example.com", name := "Asha Rao",
    encrypted_refresh_token := "gAAAAABcipher",
    spreadsheet_id := some "1BxiMVs0XRA5nFMdKvBdBZjgmUUqptlbs74OgvE2upms" }

end GSheetsDB

namespace GSheetsDB

/-! ## Helper lemmas -/

/-- Upper-casing a lowercase hex digit gives the matching uppercase one. -/
theorem py_upper_hex_char (d : Fin 16) : py_upper (hex_char d) = upper_hex_char d := by
  revert d
  decide

/-- Uppercase hex digits lie in the character class `[0-9A-F]`. -/
theorem isUpperHex_upper_hex_char (d : Fin 16) : isUpperHex (upper_hex_char d) = true := by
  revert d
  decide

/-- The sixteen uppercase hex digits are pairwise distinct. -/
theorem upper_hex_char_injective : Function.Injective upper_hex_char := by
  intro d e
  revert d e
  decide

/-- The character list of a generated identifier. -/
theorem gen_id_data (pre : String) (k : Nat) (draw : List (Fin 16)) :
    (gen_id pre k (String.mk (draw.map hex_char))).data
      = (pre.data ++ ['-']) ++ (draw.take k).map upper_hex_char := by
  have h1 : (gen_id pre k (String.mk (draw.map hex_char))).data
      = (pre.data ++ ['-']) ++ ((draw.map hex_char).take k).map py_upper := rfl
  rw [h1, ← List.map_take, List.map_map]
  exact congrArg _ (List.map_congr_left fun d _ => py_upper_hex_char d)

/-- A generated identifier always matches `<pre>-[0-9A-F]{k}` when the
uuid draw has at least `k` digits. -/
theorem gen_id_format (pre : String) (k : Nat) (draw : List (Fin 16))
    (hk : k ≤ draw.length) :
    matches_id_format pre k (gen_id pre k (String.mk (draw.map hex_char))) = true := by
  have hlenpre : (pre.data ++ ['-']).length = pre.length + 1 := by
    simp [List.length_append]
  simp only [matches_id_format, gen_id_data, List.take_left' hlenpre,
    List.drop_left' hlenpre, beq_self_eq_true, Bool.true_and, Bool.and_eq_true,
    beq_iff_eq, List.length_map, List.length_take, List.all_eq_true]
  refine ⟨Nat.min_eq_left hk, ?_⟩
  intro c hc
  rcases List.mem_map.mp hc with ⟨d, _, rfl⟩
  exact isUpperHex_upper_hex_char d

/-! ## Claims -/

/-- Claim C1: the spec claims the login flow issues a session token
embedding the user's email with a 24-hour expiry, the token-issuing
function defaulting to 15 minutes when no lifetime is supplied. The
code's `auth_callback` calls `create_access_token` *without* an
`expires_delta`, so the login token expires 15 minutes after issuance;
the 24-hour constant `ACCESS_TOKEN_EXPIRE_MINUTES` (commented "Token
valid for 1 day") is defined but never used. Evaluated at issuance
time 0 for `user@example.com`. -/
theorem claim_C1_login_token_is_15_minutes :
    auth_callback_token 0 "user@example.com" = { sub := "user@example.com", exp := 15 }
    ∧ ACCESS_TOKEN_EXPIRE_MINUTES = 1440
    ∧ (auth_callback_token 0 "user@example.com").exp ≠ 0 + ACCESS_TOKEN_EXPIRE_MINUTES :=
  ⟨rfl, rfl, by decide⟩

/-- Claim C2, counterexample: the mapper round-trip fails on a valid
create payload whose optional `remarks` field is `None`: the row cell
becomes the Python string `str(None) = "None"`, which maps back to
`remarks = "None"`, not to an unset field. -/
theorem claim_C2_counterexample :
    map_row_to_model (row_to_dict admissions_headers
        (map_model_to_row sample_admission_no_remarks))
      ≠ some sample_admission_no_remarks := by
  decide

/-- Claim C2, amended: for every create payload all of whose fields are
set — in particular the optional `remarks` carries a value — mapping
the record to a header-ordered row and the row back to the record kind
yields the original record, for the fixed `Admissions` header order. -/
theorem claim_C2_roundtrip_all_fields_set
    (sn dob g cn em ad ca dep st pgn pgc nat cat rem aid adt : String) :
    map_row_to_model (row_to_dict admissions_headers (map_model_to_row
      { student_name := sn, date_of_birth := dob, gender := g, contact_number := cn,
        email := em, address := ad, course_applied := ca, department := dep,
        admission_status := st, parent_guardian_name := pgn,
        parent_guardian_contact := pgc, nationality := nat, category := cat,
        remarks := some rem, admission_id := aid, admission_date := adt }))
    = some
      { student_name := sn, date_of_birth := dob, gender := g, contact_number := cn,
        email := em, address := ad, course_applied := ca, department := dep,
        admission_status := st, parent_guardian_name := pgn,
        parent_guardian_contact := pgc, nationality := nat, category := cat,
        remarks := some rem, admission_id := aid, admission_date := adt } := by
  rfl

/-- Claim C3: the update merge is a true partial patch: the empty patch
reproduces the existing record field for field, and a patch containing
exactly one field changes exactly that field, every other field — the
identifier and admission date have no patch slot at all — being kept
from the existing record. -/
theorem claim_C3_update_partial_patch (a : Admission) :
    model_copy a emptyAdmissionUpdate = a
    ∧ (∀ v, model_copy a { emptyAdmissionUpdate with student_name := some v }
          = { a with student_name := v })
    ∧ (∀ v, model_copy a { emptyAdmissionUpdate with date_of_birth := some v }
          = { a with date_of_birth := v })
    ∧ (∀ v, model_copy a { emptyAdmissionUpdate with gender := some v }
          = { a with gender := v })
    ∧ (∀ v, model_copy a { emptyAdmissionUpdate with contact_number := some v }
          = { a with contact_number := v })
    ∧ (∀ v, model_copy a { emptyAdmissionUpdate with email := some v }
          = { a with email := v })
    ∧ (∀ v, model_copy a { emptyAdmissionUpdate with address := some v }
          = { a with address := v })
    ∧ (∀ v, model_copy a { emptyAdmissionUpdate with course_applied := some v }
          = { a with course_applied := v })
    ∧ (∀ v, model_copy a { emptyAdmissionUpdate with department := some v }
          = { a with department := v })
    ∧ (∀ v, model_copy a { emptyAdmissionUpdate with admission_status := some v }
          = { a with admission_status := v })
    ∧ (∀ v, model_copy a { emptyAdmissionUpdate with parent_guardian_name := some v }
          = { a with parent_guardian_name := v })
    ∧ (∀ v, model_copy a { emptyAdmissionUpdate with parent_guardian_contact := some v }
          = { a with parent_guardian_contact := v })
    ∧ (∀ v, model_copy a { emptyAdmissionUpdate with nationality := some v }
          = { a with nationality := v })
    ∧ (∀ v, model_copy a { emptyAdmissionUpdate with category := some v }
          = { a with category := v })
    ∧ (∀ v, model_copy a { emptyAdmissionUpdate with remarks := some v }
          = { a with remarks := v }) :=
  ⟨rfl, fun _ => rfl, fun _ => rfl, fun _ => rfl, fun _ => rfl, fun _ => rfl,
   fun _ => rfl, fun _ => rfl, fun _ => rfl, fun _ => rfl, fun _ => rfl,
   fun _ => rfl, fun _ => rfl, fun _ => rfl, fun _ => rfl⟩

/-- Claim C4: for a provisioned user, deleting an identifier that matches
no row of the sub-table fails with HTTP 404, and the trace of remote
calls actually issued — the metadata read and the grid read — contains
no mutation of the row store. -/
theorem claim_C4_delete_not_found_no_mutation
    (u : UserRec) (sid : String) (meta : List (String × Nat)) (sheet_id : Nat)
    (headers : List String) (rest : List (List String)) (ci : Nat) (item_id : String)
    (hu : u.spreadsheet_id = some sid) (hlen : 30 ≤ sid.length)
    (hmeta : meta.lookup "Admissions" = some sheet_id)
    (hcol : headers.findIdx? (· == "Admission ID") = some ci)
    (hnone : ∀ row ∈ headers :: rest, row_matches ci item_id row = false) :
    delete_record u meta (headers :: rest) item_id
      = (.error 404, [.getMetadata, .fetchAll "Admissions"])
    ∧ ∀ c ∈ (delete_record u meta (headers :: rest) item_id).2, c.isMutation = false := by
  have hsid : get_spreadsheet_id u = .ok sid := by
    simp [get_spreadsheet_id, hu, Nat.not_lt.mpr hlen]
  have hscan : (headers :: rest).findIdx? (row_matches ci item_id) = none :=
    List.findIdx?_eq_none_iff.mpr hnone
  have hfind : find_row_index (headers :: rest) item_id "Admission ID"
      = .error "Record not found." := by
    simp [find_row_index, hcol, hscan]
  have heq : delete_record u meta (headers :: rest) item_id
      = (.error 404, [.getMetadata, .fetchAll "Admissions"]) := by
    simp [delete_record, hsid, delete_row, hmeta, hfind]
  refine ⟨heq, ?_⟩
  rw [heq]
  intro c hc
  rcases hc with _ | ⟨_, _ | ⟨_, h⟩⟩
  · rfl
  · rfl
  · cases h

/-- Claim C4, witness: a concrete provisioned user, a sub-table holding
only its header row, and the identifier `ADM-NOPE`, which matches no
row: the delete fails 404 and issues only the two reads. -/
theorem claim_C4_witness :
    delete_record sample_user_provisioned [("Admissions", 7)] [admissions_headers] "ADM-NOPE"
      = (.error 404, [.getMetadata, .fetchAll "Admissions"])
    ∧ ∀ c ∈ (delete_record sample_user_provisioned [("Admissions", 7)]
        [admissions_headers] "ADM-NOPE").2, c.isMutation = false :=
  claim_C4_delete_not_found_no_mutation sample_user_provisioned
    "1BxiMVs0XRA5nFMdKvBdBZjgmUUqptlbs74OgvE2upms" [("Admissions", 7)] 7
    admissions_headers [] 0 "ADM-NOPE"
    rfl (by decide) rfl (by decide) (by decide)

/-- Claim C5: provisioning is idempotent: calling `setup_sheet` twice for
the same user returns the same spreadsheet identifier both times and
the second call issues no spreadsheet-creation call (its provisioning
trace is empty). The hypothesis says the remote service returns a
non-empty identifier for the first creation. -/
theorem claim_C5_setup_sheet_idempotent (u : UserRec) (fresh1 fresh2 : String)
    (h : fresh1 ≠ "") :
    (setup_sheet (setup_sheet u fresh1).1 fresh2).2.1 = (setup_sheet u fresh1).2.1
    ∧ ∀ c ∈ (setup_sheet (setup_sheet u fresh1).1 fresh2).2.2, c.isCreate = false := by
  have hne : fresh1.isEmpty = false := by
    cases he : fresh1.isEmpty
    · rfl
    · exact absurd (fresh1.isEmpty_iff.mp he) h
  have htr : truthy (some fresh1) = true := by simp [truthy, hne]
  cases ht : truthy u.spreadsheet_id
  · constructor
    · simp [setup_sheet, ht, htr]
    · simp [setup_sheet, ht, htr]
  · constructor
    · simp [setup_sheet, ht]
    · simp [setup_sheet, ht]

/-- Claim C5, witness: a never-provisioned user, first remote id a
concrete 44-character string, second (hypothetical) remote id another:
the second call returns the first id and creates nothing. -/
theorem claim_C5_witness :
    (setup_sheet (setup_sheet sample_user_unprovisioned
        "1BxiMVs0XRA5nFMdKvBdBZjgmUUqptlbs74OgvE2upms").1 "2XyZ").2.1
      = (setup_sheet sample_user_unprovisioned
        "1BxiMVs0XRA5nFMdKvBdBZjgmUUqptlbs74OgvE2upms").2.1
    ∧ ∀ c ∈ (setup_sheet (setup_sheet sample_user_unprovisioned
        "1BxiMVs0XRA5nFMdKvBdBZjgmUUqptlbs74OgvE2upms").1 "2XyZ").2.2,
        c.isCreate = false :=
  claim_C5_setup_sheet_idempotent sample_user_unprovisioned
    "1BxiMVs0XRA5nFMdKvBdBZjgmUUqptlbs74OgvE2upms" "2XyZ" (by decide)

/-- Claim C6: on the provisioning path, the identifier-recording step sits
immediately after container creation and before header setup, and in
every crash prefix that ran at least the first two steps the user row
already carries the recorded identifier. -/
theorem claim_C6_id_recorded_before_headers (u : UserRec) (fresh : String)
    (h : truthy u.spreadsheet_id = false) :
    ((setup_sheet u fresh).2.2.findIdx SetupCall.isRecordId
        = (setup_sheet u fresh).2.2.findIdx SetupCall.isCreate + 1)
    ∧ ((setup_sheet u fresh).2.2.findIdx SetupCall.isRecordId
        < (setup_sheet u fresh).2.2.findIdx SetupCall.isSetupHeaders)
    ∧ ∀ k, 2 ≤ k →
        (run_setup_upto u (setup_sheet u fresh).2.2 k).spreadsheet_id = some fresh := by
  have htrace : (setup_sheet u fresh).2.2
      = [SetupCall.createSpreadsheet ("ERP Data - " ++ u.email),
         SetupCall.recordSpreadsheetId u.email fresh,
         SetupCall.setupHeaders fresh] := by
    simp [setup_sheet, h]
  refine ⟨?_, ?_, ?_⟩
  · rw [htrace]
    simp [List.findIdx_cons, SetupCall.isRecordId, SetupCall.isCreate]
  · rw [htrace]
    simp [List.findIdx_cons, SetupCall.isRecordId, SetupCall.isSetupHeaders]
  · intro k hk
    rw [htrace]
    match k, hk with
    | (n + 2), _ =>
      cases n with
      | zero => rfl
      | succ m =>
        simp [run_setup_upto, List.take_succ_cons, List.take_nil,
          apply_setup_call]

/-- Claim C6, witness: the unprovisioned sample user: in the concrete
trace the recording step is step 1 (creation is step 0, header setup
step 2), and a crash right after step 2 leaves the id recorded. -/
theorem claim_C6_witness :
    ((setup_sheet sample_user_unprovisioned "1FreshSpreadsheetId").2.2.findIdx
        SetupCall.isRecordId
      = (setup_sheet sample_user_unprovisioned "1FreshSpreadsheetId").2.2.findIdx
        SetupCall.isCreate + 1)
    ∧ (run_setup_upto sample_user_unprovisioned
        (setup_sheet sample_user_unprovisioned "1FreshSpreadsheetId").2.2 2).spreadsheet_id
      = some "1FreshSpreadsheetId" :=
  ⟨(claim_C6_id_recorded_before_headers sample_user_unprovisioned
      "1FreshSpreadsheetId" rfl).1,
   (claim_C6_id_recorded_before_headers sample_user_unprovisioned
      "1FreshSpreadsheetId" rfl).2.2 2 (by decide)⟩

/-- Claim C7, counterexample: nothing in the code prevents two creates
from producing the same identifier — the identifier is a deterministic
function of the random uuid draw, and two *distinct* 32-digit draws
that agree on their first 6 hex digits yield the same `ADM-` id. -/
theorem claim_C7_counterexample :
    ("0123456789abcdef0123456789abcdef" : String)
      ≠ "0123456789abcdefffffffffffffffff"
    ∧ admission_id_default "0123456789abcdef0123456789abcdef"
      = admission_id_default "0123456789abcdefffffffffffffffff" :=
  ⟨by decide, rfl⟩

/-- Claim C7, amended: for every 32-digit lowercase-hex uuid draw, each
kind's generated identifier matches `<PREFIX>-[0-9A-F]{k}` with the
kind-specific prefix and length (`ADM-`/6, `BK-`/8, `HOC-`/6,
`RCPT-`/8, `USR-`/6); and two creates produce distinct identifiers
exactly when their draws differ within the first `k` hex digits (rather
than "never" being equal unconditionally). -/
theorem claim_C7_id_format_and_distinctness (draw : List (Fin 16))
    (hlen : draw.length = 32) :
    matches_id_format "ADM" 6 (admission_id_default (String.mk (draw.map hex_char))) = true
    ∧ matches_id_format "BK" 8 (book_id_default (String.mk (draw.map hex_char))) = true
    ∧ matches_id_format "HOC" 6 (occupancy_id_default (String.mk (draw.map hex_char))) = true
    ∧ matches_id_format "RCPT" 8 (receipt_id_default (String.mk (draw.map hex_char))) = true
    ∧ matches_id_format "USR" 6 (user_id_default (String.mk (draw.map hex_char))) = true
    ∧ ∀ draw2 : List (Fin 16), draw.take 6 ≠ draw2.take 6 →
        admission_id_default (String.mk (draw.map hex_char))
          ≠ admission_id_default (String.mk (draw2.map hex_char)) := by
  have h32 : ∀ k, k ≤ 32 → k ≤ draw.length := fun k hk => hlen ▸ hk
  refine ⟨gen_id_format "ADM" 6 draw (h32 6 (by decide)),
          gen_id_format "BK" 8 draw (h32 8 (by decide)),
          gen_id_format "HOC" 6 draw (h32 6 (by decide)),
          gen_id_format "RCPT" 8 draw (h32 8 (by decide)),
          gen_id_format "USR" 6 draw (h32 6 (by decide)), ?_⟩
  intro draw2 hne heq
  apply hne
  have hdata := congrArg String.data heq
  simp only [admission_id_default] at hdata
  rw [gen_id_data, gen_id_data] at hdata
  have hmap := List.append_cancel_left hdata
  exact List.map_injective_iff.mpr upper_hex_char_injective hmap

/-- Claim C7, witness: the all-`a` draw (digit 10 repeated 32 times):
all five generated identifiers match their formats, and the id differs
from the one generated from the all-`0` draw. -/
theorem claim_C7_witness :
    matches_id_format "ADM" 6
      (admission_id_default (String.mk ((List.replicate 32 (10 : Fin 16)).map hex_char))) = true
    ∧ matches_id_format "RCPT" 8
      (receipt_id_default (String.mk ((List.replicate 32 (10 : Fin 16)).map hex_char))) = true
    ∧ admission_id_default (String.mk ((List.replicate 32 (10 : Fin 16)).map hex_char))
      ≠ admission_id_default (String.mk ((List.replicate 32 (0 : Fin 16)).map hex_char)) :=
  ⟨(claim_C7_id_format_and_distinctness (List.replicate 32 (10 : Fin 16)) (by decide)).1,
   (claim_C7_id_format_and_distinctness (List.replicate 32 (10 : Fin 16)) (by decide)).2.2.2.1,
   (claim_C7_id_format_and_distinctness (List.replicate 32 (10 : Fin 16)) (by decide)).2.2.2.2.2
     (List.replicate 32 (0 : Fin 16)) (by decide)⟩

/-- Claim C8: each of the four CRUD operations resolves the acting user's
spreadsheet identifier first, and when it is absent (NULL) or shorter
than the 30-character sanity bound the operation fails with HTTP 400
and issues no row-store call at all (empty trace). -/
theorem claim_C8_crud_gated_on_spreadsheet_id
    (u : UserRec) (data : Admission) (values : List (List String))
    (meta : List (String × Nat)) (item_id : String) (patch : AdmissionUpdate)
    (h : ∀ s, u.spreadsheet_id = some s → s.length < 30) :
    add_record u data = (.error 400, [])
    ∧ get_records u values = (.error 400, [])
    ∧ update_record u values item_id patch = (.error 400, [])
    ∧ delete_record u meta values item_id = (.error 400, []) := by
  have hg : get_spreadsheet_id u = .error 400 := by
    cases hs : u.spreadsheet_id with
    | none => simp [get_spreadsheet_id, hs]
    | some s => simp [get_spreadsheet_id, hs, h s hs]
  exact ⟨by simp [add_record, hg], by simp [get_records, hg],
         by simp [update_record, hg], by simp [delete_record, hg]⟩

/-- Claim C8, witness: the never-provisioned sample user: all four
operations fail 400 and touch the store not at all. -/
theorem claim_C8_witness :
    add_record sample_user_unprovisioned sample_admission_no_remarks = (.error 400, [])
    ∧ get_records sample_user_unprovisioned [] = (.error 400, [])
    ∧ update_record sample_user_unprovisioned [] "ADM-0F3A2B" emptyAdmissionUpdate
      = (.error 400, [])
    ∧ delete_record sample_user_unprovisioned [] [] "ADM-0F3A2B" = (.error 400, []) :=
  claim_C8_crud_gated_on_spreadsheet_id sample_user_unprovisioned
    sample_admission_no_remarks [] [] "ADM-0F3A2B" emptyAdmissionUpdate
    (fun _ hs => Option.noConfusion hs)

/-- Claim C9: the authentication upsert changes only the display name and
encrypted credential: it preserves every row's `(email, spreadsheet_id)`
pair when the user exists, and inserts a NULL spreadsheet id when not;
and the provisioning write `update_spreadsheet_id` changes no row's
`(email, name, encrypted_refresh_token)` triple — the spreadsheet id is
written only by the provisioning operation. -/
theorem claim_C9_upsert_preserves_spreadsheet_id
    (db : List UserRec) (email name tok e2 sid : String) :
    (db.any (fun u => u.email == email) = true →
      (save_or_update_user db email name tok).map (fun u => (u.email, u.spreadsheet_id))
        = db.map (fun u => (u.email, u.spreadsheet_id)))
    ∧ (db.any (fun u => u.email == email) = false →
      (save_or_update_user db email name tok).map (fun u => (u.email, u.spreadsheet_id))
        = db.map (fun u => (u.email, u.spreadsheet_id)) ++ [(email, none)])
    ∧ (update_spreadsheet_id db e2 sid).map
        (fun u => (u.email, u.name, u.encrypted_refresh_token))
        = db.map (fun u => (u.email, u.name, u.encrypted_refresh_token)) := by
  refine ⟨?_, ?_, ?_⟩
  · intro hex
    rw [save_or_update_user, if_pos hex, List.map_map]
    apply List.map_congr_left
    intro u _
    by_cases hu : u.email == email
    · simp [Function.comp, hu]
    · simp [Function.comp, hu]
  · intro hex
    rw [save_or_update_user, if_neg (by simp [hex])]
    simp
  · rw [update_spreadsheet_id, List.map_map]
    apply List.map_congr_left
    intro u _
    by_cases hu : u.email == e2
    · simp [Function.comp, hu]
    · simp [Function.comp, hu]

/-- Claim C9, witness: re-authentication of the provisioned sample user
with a new name and credential leaves its `(email, spreadsheet_id)`
pair untouched, and a provisioning write for another email leaves its
name/credential untouched. -/
theorem claim_C9_witness :
    (save_or_update_user [sample_user_provisioned] "asha@example.com" "New Name" "tok2").map
        (fun u => (u.email, u.spreadsheet_id))
      = [sample_user_provisioned].map (fun u => (u.email, u.spreadsheet_id))
    ∧ (update_spreadsheet_id [sample_user_provisioned] "other@example.com" "1Another").map
        (fun u => (u.email, u.name, u.encrypted_refresh_token))
      = [sample_user_provisioned].map (fun u => (u.email, u.name, u.encrypted_refresh_token)) :=
  ⟨(claim_C9_upsert_preserves_spreadsheet_id [sample_user_provisioned]
      "asha@example.com" "New Name" "tok2" "other@example.com" "1Another").1 (by decide),
   (claim_C9_upsert_preserves_spreadsheet_id [sample_user_provisioned]
      "asha@example.com" "New Name" "tok2" "other@example.com" "1Another").2.2⟩

/-- Claim C10: `find_row_index` scans the whole grid from index 0 — the
header row itself — and returns the 1-based index of the first row
whose cell in the search column equals the search value; consequently,
searching for the identifier column's own header name matches the
header row, returns 1, and the delete path then issues a
`deleteDimension` for grid rows `[0, 1)`: the header row. -/
theorem claim_C10_find_row_index_scans_header_row
    (headers : List String) (rest : List (List String)) (cn sv : String) (ci i : Nat)
    (hcol : headers.findIdx? (· == cn) = some ci)
    (hi : i < (headers :: rest).length)
    (hmatch : row_matches ci sv ((headers :: rest).getD i []) = true)
    (hfirst : ∀ j, j < i → row_matches ci sv ((headers :: rest).getD j []) = false) :
    find_row_index (headers :: rest) sv cn = .ok (i + 1)
    ∧ ∀ (meta : List (String × Nat)) (sheet_id : Nat),
        meta.lookup "Admissions" = some sheet_id →
        delete_row meta (headers :: rest) "Admissions" cn cn
          = (.ok (), [.getMetadata, .fetchAll "Admissions", .deleteDim sheet_id 0 1]) := by
  have hgetD : ∀ j (hj : j < (headers :: rest).length),
      (headers :: rest).getD j [] = (headers :: rest)[j] := by
    intro j hj
    rw [List.getD_eq_getElem?_getD, List.getElem?_eq_getElem hj]
    rfl
  constructor
  · have hscan : (headers :: rest).findIdx? (row_matches ci sv) = some i := by
      rw [List.findIdx?_eq_some_iff_findIdx_eq]
      refine ⟨hi, (List.findIdx_eq hi).mpr ⟨?_, ?_⟩⟩
      · rw [← hgetD i hi]
        exact hmatch
      · intro j hj
        rw [← hgetD j (Nat.lt_trans hj hi)]
        exact hfirst j hj
    simp [find_row_index, hcol, hscan]
  · intro meta sheet_id hmeta
    have hcol' := List.findIdx?_eq_some_iff_findIdx_eq.mp hcol
    have hcilt : ci < headers.length := hcol'.1
    have hcell : headers[ci] = cn := by
      have h1 := ((List.findIdx_eq hcilt).mp hcol'.2).1
      exact beq_iff_eq.mp h1
    have hhead : row_matches ci cn headers = true := by
      unfold row_matches
      simp [hcilt, hcell]
    have hscan0 : (headers :: rest).findIdx? (row_matches ci cn) = some 0 := by
      rw [List.findIdx?_cons, hhead]
      rfl
    have hfind : find_row_index (headers :: rest) cn cn = .ok 1 := by
      simp [find_row_index, hcol, hscan0]
    simp [delete_row, hmeta, hfind]

/-- Claim C10, witness: the `Admissions` sub-table holding only its
header row, searched for the literal header name `Admission ID`:
`find_row_index` returns 1 and `delete_row` deletes grid rows `[0, 1)`
— the header row itself. -/
theorem claim_C10_witness :
    find_row_index [admissions_headers] "Admission ID" "Admission ID" = .ok 1
    ∧ delete_row [("Admissions", 3)] [admissions_headers] "Admissions"
        "Admission ID" "Admission ID"
      = (.ok (), [.getMetadata, .fetchAll "Admissions", .deleteDim 3 0 1]) :=
  ⟨(claim_C10_find_row_index_scans_header_row admissions_headers [] "Admission ID"
      "Admission ID" 0 0 rfl (by decide) (by decide)
      (fun j hj => absurd hj (Nat.not_lt_zero j))).1,
   (claim_C10_find_row_index_scans_header_row admissions_headers [] "Admission ID"
      "Admission ID" 0 0 rfl (by decide) (by decide)
      (fun j hj => absurd hj (Nat.not_lt_zero j))).2 [("Admissions", 3)] 3 rfl⟩

end GSheetsDB
